import Mathlib

/-!
Verification of the POS frontend's cart, checkout, API-error and catalog
logic.  Each definition is a shallow embedding of the corresponding
TypeScript function; JavaScript numbers are modelled as rationals (`ℚ`)
for prices and as integers (`ℤ`) for quantities, and JavaScript string
truthiness (empty string is falsy) is made explicit where the code
relies on it.
-/

/-- `ProductSize` from `src/types/index.ts`: one size row of a product. -/
structure ProductSize where
  size : String
  quantity : ℤ
deriving DecidableEq, Repr

/-- `Product` from `src/types/index.ts` (fields the cart logic reads). -/
structure Product where
  _id : String
  name : String
  category : String
  wholesalePrice : ℚ
  retailPrice : ℚ
  sizes : List ProductSize
deriving DecidableEq, Repr

/-- `CartItem` from `src/types/index.ts`: a product line in the cart.
`quantity` is the remembered per-size availability captured at add time. -/
structure CartItem extends Product where
  cartQuantity : ℤ
  quantity : ℤ
  selectedSize : String
deriving DecidableEq, Repr

/-- `product.sizes.find(s => s.size === size)?.quantity || 0`
from `handleAddToCart` in `src/App.tsx`. -/
def sizeStockOf (product : Product) (size : String) : ℤ :=
  ((product.sizes.find? (fun s => s.size == size)).map ProductSize.quantity).getD 0

/-- The line-matching test used by `handleAddToCart` in `src/App.tsx`:
`item._id === product._id && item.selectedSize === size`. -/
def cartLineMatch (product : Product) (size : String) (item : CartItem) : Bool :=
  item._id == product._id && item.selectedSize == size

/-- The new line appended by `handleAddToCart` in `src/App.tsx`:
`{ ...product, cartQuantity: 1, selectedSize: size, quantity: sizeStock }`. -/
def newCartLine (product : Product) (size : String) : CartItem :=
  { toProduct := product
    cartQuantity := 1
    quantity := sizeStockOf product size
    selectedSize := size }

/-- `handleAddToCart` from `src/App.tsx` (lines 76–96). -/
def handleAddToCart (product : Product) (size : String) (prev : List CartItem) :
    List CartItem :=
  let sizeStock := sizeStockOf product size
  if sizeStock = 0 then prev
  else
    match prev.find? (cartLineMatch product size) with
    | some existingItem =>
        if existingItem.cartQuantity < sizeStock then
          prev.map (fun item =>
            if cartLineMatch product size item then
              { item with cartQuantity := item.cartQuantity + 1 }
            else item)
        else prev
    | none => prev ++ [newCartLine product size]

/-- `handleRemoveItem` from `src/App.tsx` (lines 111–113):
`prev.filter(item => item._id !== id)`. -/
def handleRemoveItem (id : String) (prev : List CartItem) : List CartItem :=
  prev.filter (fun item => item._id != id)

/-- `handleUpdateQuantity` from `src/App.tsx` (lines 98–109). -/
def handleUpdateQuantity (id : String) (quantity : ℤ) (prev : List CartItem) :
    List CartItem :=
  if quantity ≤ 0 then handleRemoveItem id prev
  else prev.map (fun item =>
    if item._id == id then { item with cartQuantity := quantity } else item)

/-- `subtotal` from `src/components/Cart.tsx` (lines 36–39):
`cartItems.reduce((sum, item) => sum + item.retailPrice * item.cartQuantity, 0)`. -/
def subtotal (cartItems : List CartItem) : ℚ :=
  cartItems.foldl (fun sum item => sum + item.retailPrice * (item.cartQuantity : ℚ)) 0

/-- `totalAmount` from `src/components/Cart.tsx` (line 42):
`Math.max(0, subtotal - discountAmount)`. -/
def totalAmount (cartItems : List CartItem) (discountAmount : ℚ) : ℚ :=
  max 0 (subtotal cartItems - discountAmount)

/-- `totalProfit` from `src/components/Cart.tsx` (lines 44–47). -/
def totalProfit (cartItems : List CartItem) (discountAmount : ℚ) : ℚ :=
  cartItems.foldl
    (fun sum item => sum + (item.retailPrice - item.wholesalePrice) * (item.cartQuantity : ℚ))
    0 - discountAmount

/-- The profit figure rendered in the order summary of `src/components/Cart.tsx`
(line 279): `Math.max(0, totalProfit)`. -/
def displayedProfit (cartItems : List CartItem) (discountAmount : ℚ) : ℚ :=
  max 0 (totalProfit cartItems discountAmount)

/-- Folding an additive update over a list starting from `a` is `a` plus the
sum of the mapped values. -/
theorem foldl_add_eq_sum {α M : Type} [AddCommMonoid M] (f : α → M) (l : List α) (a : M) :
    l.foldl (fun sum x => sum + f x) a = a + (l.map f).sum := by
  induction l generalizing a with
  | nil => simp
  | cons x xs ih => simp [List.foldl_cons, ih (a + f x), add_assoc]

/-- Claim C1: for every cart and discount `d`, the computed subtotal is the
sum over lines of `retailPrice × cartQuantity`, the displayed total is
`max 0 (subtotal − d)`, and the displayed profit is
`max 0 (Σ (retailPrice − wholesalePrice) × cartQuantity − d)`. -/
theorem cart_totals_spec (cartItems : List CartItem) (d : ℚ) :
    subtotal cartItems
      = (cartItems.map (fun item => item.retailPrice * (item.cartQuantity : ℚ))).sum ∧
    totalAmount cartItems d = max 0 (subtotal cartItems - d) ∧
    displayedProfit cartItems d
      = max 0 ((cartItems.map
          (fun item => (item.retailPrice - item.wholesalePrice) * (item.cartQuantity : ℚ))).sum
          - d) := by
  refine ⟨?_, rfl, ?_⟩
  · simpa using foldl_add_eq_sum
      (fun item => item.retailPrice * (item.cartQuantity : ℚ)) cartItems 0
  · unfold displayedProfit totalProfit
    rw [foldl_add_eq_sum
      (fun item => (item.retailPrice - item.wholesalePrice) * (item.cartQuantity : ℚ))
      cartItems 0]
    simp

/-- Sample product used to instantiate the cart theorems. -/
def sampleProduct : Product :=
  { _id := "p1"
    name := "Tee"
    category := "Apparel"
    wholesalePrice := 50
    retailPrice := 80
    sizes := [⟨"M", 2⟩, ⟨"L", 3⟩] }

/-- A cart line for `sampleProduct` in size M. -/
def lineM : CartItem :=
  { toProduct := sampleProduct, cartQuantity := 1, quantity := 2, selectedSize := "M" }

/-- A cart line for `sampleProduct` in size L. -/
def lineL : CartItem :=
  { toProduct := sampleProduct, cartQuantity := 1, quantity := 3, selectedSize := "L" }

/-- Claim C2: `handleAddToCart` rejects an out-of-stock (or absent) size,
increments an existing matching line by exactly 1 while it is strictly below
the remembered stock, leaves the cart unchanged at the remembered stock, and
otherwise appends a fresh line with `cartQuantity 1` whose remembered
availability is the size's stock; with per-(id,size) unique lines and a
nonnegative stock no add pushes a line past the remembered ceiling. -/
theorem handleAddToCart_spec (product : Product) (size : String) (cart : List CartItem) :
    (sizeStockOf product size = 0 → handleAddToCart product size cart = cart) ∧
    (∀ it, sizeStockOf product size ≠ 0 →
      cart.find? (cartLineMatch product size) = some it →
      (it.cartQuantity < sizeStockOf product size →
        List.Forall₂ (fun old new =>
          (cartLineMatch product size old = true →
            new = { old with cartQuantity := old.cartQuantity + 1 }) ∧
          (cartLineMatch product size old = false → new = old))
          cart (handleAddToCart product size cart)) ∧
      (sizeStockOf product size ≤ it.cartQuantity →
        handleAddToCart product size cart = cart)) ∧
    (sizeStockOf product size ≠ 0 →
      cart.find? (cartLineMatch product size) = none →
      handleAddToCart product size cart = cart ++ [newCartLine product size]) ∧
    (0 ≤ sizeStockOf product size →
      cart.Pairwise (fun a b => a._id ≠ b._id ∨ a.selectedSize ≠ b.selectedSize) →
      ∀ it ∈ handleAddToCart product size cart,
        it ∈ cart ∨ it.cartQuantity ≤ sizeStockOf product size) := by
  refine ⟨?_, ?_, ?_, ?_⟩
  · intro h0
    simp [handleAddToCart, h0]
  · intro it hne hfind
    constructor
    · intro hlt
      have hres : handleAddToCart product size cart
          = cart.map (fun item =>
              if cartLineMatch product size item then
                { item with cartQuantity := item.cartQuantity + 1 }
              else item) := by
        simp [handleAddToCart, hne, hfind, hlt]
      rw [hres]
      rw [List.forall₂_map_right_iff]
      rw [List.forall₂_same]
      intro x _
      constructor
      · intro hm; simp [hm]
      · intro hm; simp [hm]
    · intro hge
      have hnlt : ¬ it.cartQuantity < sizeStockOf product size := not_lt.mpr hge
      simp [handleAddToCart, hne, hfind, hnlt]
  · intro hne hfind
    simp [handleAddToCart, hne, hfind]
  · intro hnn hpw it hmem
    by_cases h0 : sizeStockOf product size = 0
    · left
      rw [show handleAddToCart product size cart = cart by simp [handleAddToCart, h0]] at hmem
      exact hmem
    · have hpos : 1 ≤ sizeStockOf product size := lt_of_le_of_ne hnn (Ne.symm h0)
      rcases hf : cart.find? (cartLineMatch product size) with _ | found
      · rw [show handleAddToCart product size cart = cart ++ [newCartLine product size] by
          simp [handleAddToCart, h0, hf]] at hmem
        rcases List.mem_append.mp hmem with h | h
        · exact Or.inl h
        · right
          rw [List.mem_singleton.mp h]
          exact hpos
      · by_cases hlt : found.cartQuantity < sizeStockOf product size
        · rw [show handleAddToCart product size cart
              = cart.map (fun item =>
                  if cartLineMatch product size item then
                    { item with cartQuantity := item.cartQuantity + 1 }
                  else item) by simp [handleAddToCart, h0, hf, hlt]] at hmem
          rcases List.mem_map.mp hmem with ⟨x, hx, hxeq⟩
          by_cases hm : cartLineMatch product size x
          · right
            have hfoundmem : found ∈ cart := List.mem_of_find?_eq_some hf
            have hfoundmatch : cartLineMatch product size found = true := List.find?_some hf
            have hxf : x = found := by
              by_contra hne'
              have hkey := hpw.forall (fun a b hab => by
                  rcases hab with h | h
                  · exact Or.inl (Ne.symm h)
                  · exact Or.inr (Ne.symm h)) hx hfoundmem hne'
              simp only [cartLineMatch, Bool.and_eq_true, beq_iff_eq] at hm hfoundmatch
              rcases hkey with h | h
              · exact h (hm.1.trans hfoundmatch.1.symm)
              · exact h (hm.2.trans hfoundmatch.2.symm)
            rw [← hxeq]
            simp only [hm, if_true]
            rw [hxf]
            omega
          · left
            rw [← hxeq]
            simp only [hm, if_false]
            exact hx
        · rw [show handleAddToCart product size cart = cart by
            simp [handleAddToCart, h0, hf, hlt]] at hmem
          exact Or.inl hmem

/-- Witness for C2: adding size M of the sample product to an empty cart
appends a fresh line with quantity 1 and remembered availability 2. -/
theorem handleAddToCart_spec_witness :
    handleAddToCart sampleProduct ("M") [] = [] ++ [newCartLine sampleProduct ("M")] :=
  (handleAddToCart_spec sampleProduct ("M") []).2.2.1 (by decide) rfl

/-- Claim C3: `handleUpdateQuantity` with `newQuantity ≤ 0` removes exactly
the lines matching the id, and with `newQuantity ≥ 1` sets every matching
line's `cartQuantity` to exactly that value — with no clamping against the
line's remembered availability — leaving other lines untouched. -/
theorem handleUpdateQuantity_spec (id : String) (q : ℤ) (cart : List CartItem) :
    (q ≤ 0 → ∀ it : CartItem,
      it ∈ handleUpdateQuantity id q cart ↔ it ∈ cart ∧ it._id ≠ id) ∧
    (1 ≤ q → List.Forall₂ (fun old new =>
      (old._id = id → new = { old with cartQuantity := q }) ∧
      (old._id ≠ id → new = old)) cart (handleUpdateQuantity id q cart)) := by
  constructor
  · intro hq it
    simp [handleUpdateQuantity, hq, handleRemoveItem, List.mem_filter, bne_iff_ne]
  · intro hq
    have hnle : ¬ q ≤ 0 := by omega
    have hres : handleUpdateQuantity id q cart
        = cart.map (fun item =>
            if item._id == id then { item with cartQuantity := q } else item) := by
      simp [handleUpdateQuantity, hnle]
    rw [hres, List.forall₂_map_right_iff, List.forall₂_same]
    intro x _
    constructor
    · intro hm; simp [hm]
    · intro hm; simp [hm]

/-- Witness for C3: setting the sample M line to 99 — far above its
remembered availability of 2 — stores exactly 99 (no clamping). -/
theorem handleUpdateQuantity_spec_witness :
    (1 : ℤ) ≤ 99 ∧
    List.Forall₂ (fun old new =>
      (old._id = "p1" → new = { old with cartQuantity := (99 : ℤ) }) ∧
      (old._id ≠ "p1" → new = old)) [lineM] (handleUpdateQuantity ("p1") 99 [lineM]) :=
  ⟨by norm_num, (handleUpdateQuantity_spec ("p1") 99 [lineM]).2 (by norm_num)⟩

/-- Claim C10: cart lines are keyed by (product id, size) on insertion —
so a line of the same product in a different size never blocks an append —
but `handleUpdateQuantity` and `handleRemoveItem` match on `_id` alone, so
an update writes the new quantity into every line of the product and a
removal deletes every line of the product. -/
theorem cart_line_keying (product : Product) (size : String) (cart : List CartItem)
    (id : String) (q : ℤ) :
    ((∀ it ∈ cart, it.selectedSize ≠ size) →
      sizeStockOf product size ≠ 0 →
      handleAddToCart product size cart = cart ++ [newCartLine product size]) ∧
    (1 ≤ q → ∀ it ∈ handleUpdateQuantity id q cart,
      it._id = id → it.cartQuantity = q) ∧
    (∀ it ∈ handleRemoveItem id cart, it._id ≠ id) := by
  refine ⟨?_, ?_, ?_⟩
  · intro hsz hne
    have hfind : cart.find? (cartLineMatch product size) = none := by
      rw [List.find?_eq_none]
      intro x hx
      simp only [cartLineMatch, Bool.and_eq_true, beq_iff_eq, not_and]
      intro _
      exact hsz x hx
    simp [handleAddToCart, hne, hfind]
  · intro hq it hmem hid
    have hnle : ¬ q ≤ 0 := by omega
    rw [show handleUpdateQuantity id q cart
        = cart.map (fun item =>
            if item._id == id then { item with cartQuantity := q } else item) by
      simp [handleUpdateQuantity, hnle]] at hmem
    rcases List.mem_map.mp hmem with ⟨x, _, hxeq⟩
    by_cases hm : x._id == id
    · rw [← hxeq]; simp [hm]
    · rw [← hxeq] at hid ⊢
      simp only [hm, Bool.false_eq_true, if_false] at hid ⊢
      exact absurd hid (by simpa using hm)
  · intro it hmem
    have := (List.mem_filter.mp hmem).2
    simpa [bne_iff_ne] using this

/-- A second view of the sample product whose only size is L. -/
def sampleProductL : Product :=
  { sampleProduct with sizes := [⟨"L", 3⟩] }

/-- Witness for C10: a cart already holding the sample product in size M does
not absorb an add of size L of the same product — a fresh line is appended. -/
theorem cart_line_keying_witness :
    handleAddToCart sampleProductL ("L") [lineM]
      = [lineM] ++ [newCartLine sampleProductL ("L")] :=
  (cart_line_keying sampleProductL ("L") [lineM] ("x") 1).1 (by decide) (by decide)

/-- Payment method selector from `src/components/Cart.tsx`. -/
inductive PaymentMethod
| CASH
| UPI
deriving DecidableEq, Repr

/-- Payment status selector from `src/components/Cart.tsx`. -/
inductive PaymentStatus
| PENDING
| PAID
deriving DecidableEq, Repr

/-- The `orderData` object assembled in `src/components/Cart.tsx`;
`none` models a field set to `undefined`. -/
structure OrderData where
  customerPhone : Option String
  paymentMethod : PaymentMethod
  paymentStatus : PaymentStatus
  discount : Option ℚ
  notes : Option String
deriving DecidableEq, Repr

/-- The form state held by the `Cart` component (`useState` hooks);
`discountAmount` is the already-parsed value of the discount input
(`discount ? parseFloat(discount) : 0`). -/
structure CartFormState where
  customerPhone : String
  paymentMethod : PaymentMethod
  paymentStatus : PaymentStatus
  discountAmount : ℚ
  notes : String
deriving DecidableEq, Repr

/-- JavaScript `str || undefined`: the empty string is falsy. -/
def jsStrOrNone (s : String) : Option String :=
  if s = "" then none else some s

/-- The `orderData` built by `handleConfirmSale` in `src/components/Cart.tsx`
(lines 54–60), with the given payment status. -/
def mkOrderData (st : CartFormState) (status : PaymentStatus) : OrderData :=
  { customerPhone := jsStrOrNone st.customerPhone.trim
    paymentMethod := st.paymentMethod
    paymentStatus := status
    discount := if st.discountAmount = 0 then none else some st.discountAmount
    notes := jsStrOrNone st.notes.trim }

/-- The `orderData` built by `handleUPIPaymentReceived` in
`src/components/Cart.tsx` (lines 70–77): method forced to UPI and status
forced to PAID. -/
def cartHandleUPIPaymentReceived (st : CartFormState) : OrderData :=
  { customerPhone := jsStrOrNone st.customerPhone.trim
    paymentMethod := PaymentMethod.UPI
    paymentStatus := PaymentStatus.PAID
    discount := if st.discountAmount = 0 then none else some st.discountAmount
    notes := jsStrOrNone st.notes.trim }

/-- The externally observable outcome of `Cart.handleConfirmSale`:
warn on an empty cart, open the UPI modal, or invoke `onConfirmSale`. -/
inductive CartAction
| warnEmptyCart
| openUPIModal
| placeOrder (od : OrderData)
deriving DecidableEq, Repr

/-- `handleConfirmSale` from `src/components/Cart.tsx` (lines 49–68). -/
def cartHandleConfirmSale (cartItems : List CartItem) (st : CartFormState) : CartAction :=
  if cartItems.length = 0 then CartAction.warnEmptyCart
  else if st.paymentMethod = PaymentMethod.UPI then CartAction.openUPIModal
  else CartAction.placeOrder (mkOrderData st st.paymentStatus)

/-- One order item of the `createOrder` payload built by
`App.handleConfirmSale` in `src/App.tsx` (lines 125–130). -/
structure ApiOrderItem where
  product : String
  size : String
  qty : ℤ
  price : ℚ
deriving DecidableEq, Repr

/-- The `createOrder` payload built by `App.handleConfirmSale`. -/
structure ApiOrderPayload where
  items : List ApiOrderItem
  orderData : OrderData
deriving DecidableEq, Repr

/-- `App.handleConfirmSale` from `src/App.tsx` (lines 115–138), up to the
point where `ApiService.createOrder` would be invoked: `none` means the
function returned before issuing any request. -/
def appHandleConfirmSale (cartItems : List CartItem) (od : OrderData) :
    Option ApiOrderPayload :=
  if cartItems.length = 0 then none
  else some
    { items := cartItems.map (fun i => ⟨i._id, i.selectedSize, i.cartQuantity, i.retailPrice⟩)
      orderData := od }

/-- Claim C4: confirming a sale on an empty cart only surfaces a warning —
`Cart.handleConfirmSale` warns without invoking `onConfirmSale`, and
`App.handleConfirmSale` returns before calling `ApiService.createOrder`. -/
theorem confirmSale_emptyCart_noop (st : CartFormState) (od : OrderData) :
    cartHandleConfirmSale [] st = CartAction.warnEmptyCart ∧
    appHandleConfirmSale [] od = none := by
  constructor <;> rfl

/-- The full interactive state of the `Cart` component relevant to checkout:
the form plus whether the UPI modal is open. -/
structure CartComponentState where
  form : CartFormState
  showUPIModal : Bool
deriving DecidableEq, Repr

/-- UI events that can drive the checkout flow: the confirm-sale button,
the modal's "Payment Received" button, and closing the modal.  The modal's
buttons only exist while `showUPIModal` is true (the modal renders `null`
otherwise), which the step function reflects. -/
inductive CartEvent
| clickConfirmSale
| upiPaymentReceived
| upiModalClose
deriving DecidableEq, Repr

/-- `resetForm` from `src/components/Cart.tsx` (lines 84–90). -/
def resetForm (st : CartFormState) : CartFormState :=
  { st with
    customerPhone := ""
    discountAmount := 0
    notes := ""
    paymentMethod := PaymentMethod.CASH
    paymentStatus := PaymentStatus.PAID }

/-- One step of the checkout flow: the next component state together with
the order submitted via `onConfirmSale` during the step (if any). -/
def cartStep (cartItems : List CartItem) (st : CartComponentState) (e : CartEvent) :
    CartComponentState × Option OrderData :=
  match e with
  | CartEvent.clickConfirmSale =>
      match cartHandleConfirmSale cartItems st.form with
      | CartAction.warnEmptyCart => (st, none)
      | CartAction.openUPIModal => ({ st with showUPIModal := true }, none)
      | CartAction.placeOrder od => ({ st with form := resetForm st.form }, some od)
  | CartEvent.upiPaymentReceived =>
      if st.showUPIModal then
        ({ form := resetForm st.form, showUPIModal := false },
          some (cartHandleUPIPaymentReceived st.form))
      else (st, none)
  | CartEvent.upiModalClose => ({ st with showUPIModal := false }, none)

/-- Claim C5: with payment method UPI, `onConfirmSale` is only ever invoked
by the "payment received" confirmation step (modal open), and that order's
status is forced to PAID; with CASH the order is submitted immediately,
carrying the currently selected payment status. -/
theorem upi_checkout_gating (cartItems : List CartItem) (st : CartComponentState)
    (e : CartEvent) :
    (∀ od, (cartStep cartItems st e).2 = some od →
      od.paymentMethod = PaymentMethod.UPI →
      e = CartEvent.upiPaymentReceived ∧ st.showUPIModal = true ∧
        od.paymentStatus = PaymentStatus.PAID) ∧
    (st.form.paymentMethod = PaymentMethod.CASH → cartItems.length ≠ 0 →
      (cartStep cartItems st CartEvent.clickConfirmSale).2
        = some (mkOrderData st.form st.form.paymentStatus)) := by
  constructor
  · intro od hod hupi
    cases e with
    | clickConfirmSale =>
        exfalso
        by_cases hempty : cartItems.length = 0
        · simp [cartStep, cartHandleConfirmSale, hempty] at hod
        · by_cases hpm : st.form.paymentMethod = PaymentMethod.UPI
          · simp [cartStep, cartHandleConfirmSale, hempty, hpm] at hod
          · simp [cartStep, cartHandleConfirmSale, hempty, hpm] at hod
            rw [← hod] at hupi
            simp [mkOrderData] at hupi
            exact hpm hupi
    | upiPaymentReceived =>
        by_cases hmodal : st.showUPIModal
        · refine ⟨rfl, hmodal, ?_⟩
          simp [cartStep, hmodal] at hod
          rw [← hod]
          rfl
        · simp [cartStep, hmodal] at hod
    | upiModalClose => simp [cartStep] at hod
  · intro hcash hne
    have hpm : ¬ st.form.paymentMethod = PaymentMethod.UPI := by
      rw [hcash]; intro h; cases h
    simp [cartStep, cartHandleConfirmSale, hne, hpm]

/-- A UPI form state used to instantiate the checkout theorems. -/
def sampleFormUPI : CartFormState :=
  { customerPhone := ""
    paymentMethod := PaymentMethod.UPI
    paymentStatus := PaymentStatus.PENDING
    discountAmount := 0
    notes := "" }

/-- Witness for C5: with the UPI modal open, the "payment received" event
submits the order and its status is PAID even though PENDING was selected. -/
theorem upi_checkout_gating_witness :
    CartEvent.upiPaymentReceived = CartEvent.upiPaymentReceived ∧
    (CartComponentState.mk sampleFormUPI true).showUPIModal = true ∧
    (cartHandleUPIPaymentReceived sampleFormUPI).paymentStatus = PaymentStatus.PAID :=
  (upi_checkout_gating [lineM] (CartComponentState.mk sampleFormUPI true)
    CartEvent.upiPaymentReceived).1 (cartHandleUPIPaymentReceived sampleFormUPI)
    (by simp [cartStep]) rfl


/-- The `ApiError` shape thrown by `ApiService.request` in
`src/services/api.ts`; `none` models an absent (`undefined`) field. -/
structure ApiError where
  status : Option ℕ
  message : String
  code : Option String
  aborted : Bool
deriving DecidableEq, Repr

/-- The parsed response body: JSON (with optional `message` / `error`
fields) or plain text, per the content-type branch of `request`. -/
inductive BodyData
| json (message : Option String) (error : Option String)
| text (s : String)
deriving DecidableEq, Repr

/-- JavaScript truthiness of an optional string field: absent and empty
strings are falsy. -/
def jsTruthyStr : Option String → Option String
| some s => if s = "" then none else some s
| none => none

/-- `(data && (data.message || data.error)) || 'Request failed'` from
`src/services/api.ts` line 63; property access on a text body yields
`undefined`, so text bodies always fall back. -/
def derivedMessage : BodyData → String
| BodyData.json m e =>
    match jsTruthyStr m with
    | some s => s
    | none =>
      match jsTruthyStr e with
      | some s => s
      | none => "Request failed"
| BodyData.text _ => "Request failed"

/-- Character-list scan for a (lower-cased) pattern occurring anywhere. -/
def containsSub (pat : List Char) : List Char → Bool
| [] => pat.isPrefixOf []
| c :: rest => pat.isPrefixOf (c :: rest) || containsSub pat rest

/-- The `/aborted/i.test(...)` check from `src/services/api.ts` line 70:
case-insensitive containment of "aborted". -/
def containsAborted (m : String) : Bool :=
  containsSub ("aborted".toList) (m.toList.map Char.toLower)

/-- A raw thrown value as inspected by the catch clause of `request`:
its `name`, `message` and `status` fields (an absent field is modelled as
`none` / the empty string). -/
structure RawError where
  name : Option String
  message : String
  status : Option ℕ
deriving DecidableEq, Repr

/-- The catch clause of `ApiService.request` (`src/services/api.ts`
lines 68–78). -/
def catchHandler (e : RawError) : ApiError :=
  if e.name == some ("AbortError") || containsAborted e.message then
    { status := none
      message := if e.message = "" then ("Request aborted") else e.message
      code := some ("ABORTED")
      aborted := true }
  else if e.message ≠ "" ∧ e.status ≠ none then
    { status := e.status, message := e.message, code := none, aborted := false }
  else
    { status := none
      message := if e.message = "" then ("Network error") else e.message
      code := none
      aborted := false }

/-- An HTTP response as seen by `request`: its status and parsed body. -/
structure HttpResponse where
  status : ℕ
  body : BodyData
deriving DecidableEq, Repr

/-- `res.ok` per the fetch specification: status in 200–299. -/
def responseOk (status : ℕ) : Bool :=
  decide (200 ≤ status) && decide (status ≤ 299)

/-- What the awaited `fetch` produced: a response, or a thrown exception
(abort or transport failure). -/
inductive FetchOutcome
| response (r : HttpResponse)
| exn (name : Option String) (message : String)
deriving DecidableEq, Repr

/-- `ApiService.request` from `src/services/api.ts` (lines 36–79), as a
function from the stored token and the fetch outcome to the new stored
token and either the body or the thrown `ApiError`.  Errors thrown inside
the `try` block pass through the catch clause, exactly as in the source. -/
def request (tok : Option String) (out : FetchOutcome) :
    Option String × Except ApiError BodyData :=
  match out with
  | FetchOutcome.exn name message =>
      (tok, Except.error (catchHandler { name := name, message := message, status := none }))
  | FetchOutcome.response r =>
      let tokAfter := if r.status = 401 then none else tok
      if responseOk r.status then (tokAfter, Except.ok r.body)
      else
        (tokAfter, Except.error (catchHandler
          { name := none, message := derivedMessage r.body, status := some r.status }))

/-- The derived error message is never the empty string. -/
theorem derivedMessage_ne_empty (b : BodyData) : derivedMessage b ≠ "" := by
  cases b with
  | text s => simp [derivedMessage]
  | json m e =>
    cases m with
    | none =>
      cases e with
      | none => simp [derivedMessage, jsTruthyStr]
      | some t =>
        by_cases ht : t = "" <;> simp [derivedMessage, jsTruthyStr, ht]
    | some s =>
      by_cases hs : s = ""
      · cases e with
        | none => simp [derivedMessage, jsTruthyStr, hs]
        | some t =>
          by_cases ht : t = "" <;> simp [derivedMessage, jsTruthyStr, hs, ht]
      · simp [derivedMessage, jsTruthyStr, hs]

/-- Counterexample to C6 as stated: a non-OK (500) response whose
server-supplied message is "aborted" is re-classified by the catch clause's
`/aborted/i` test and surfaces as an ABORTED error with **no** HTTP status,
so not every non-OK response carries its status. -/
theorem request_nonok_aborted_message_counterexample :
    (request (some ("tok"))
        (FetchOutcome.response
          (HttpResponse.mk 500 (BodyData.json (some ("aborted")) none)))).2
      = Except.error (ApiError.mk none ("aborted") (some ("ABORTED")) true) ∧
    (ApiError.mk none ("aborted") (some ("ABORTED")) true).status ≠ some 500 := by
  constructor
  · rfl
  · simp

/-- Claim C6 (amended): a 401 clears the stored token and the error still
propagates; a non-OK response whose derived message does not match
`/aborted/i` throws a structured error carrying the status and the
server-supplied message (falling back to "Request failed"); an abort —
or any error whose message matches `/aborted/i` — throws an error marked
`code = "ABORTED"` / `aborted = true` with no status; any other transport
failure throws a generic error with no status. -/
theorem request_error_handling (tok : Option String) (r : HttpResponse)
    (name : Option String) (msg : String) :
    (r.status = 401 →
      (request tok (FetchOutcome.response r)).1 = none ∧
      ∃ err, (request tok (FetchOutcome.response r)).2 = Except.error err) ∧
    (responseOk r.status = false → containsAborted (derivedMessage r.body) = false →
      (request tok (FetchOutcome.response r)).2
        = Except.error (ApiError.mk (some r.status) (derivedMessage r.body) none false)) ∧
    (name = some ("AbortError") ∨ containsAborted msg = true →
      ∃ err, (request tok (FetchOutcome.exn name msg)).2 = Except.error err ∧
        err.code = some ("ABORTED") ∧ err.aborted = true ∧ err.status = none) ∧
    (name ≠ some ("AbortError") → containsAborted msg = false →
      ∃ err, (request tok (FetchOutcome.exn name msg)).2 = Except.error err ∧
        err.status = none ∧ err.code = none ∧ err.aborted = false ∧
        err.message = (if msg = "" then ("Network error") else msg)) ∧
    (∀ m errf, m ≠ "" → derivedMessage (BodyData.json (some m) errf) = m) ∧
    derivedMessage (BodyData.json none none) = "Request failed" := by
  refine ⟨?_, ?_, ?_, ?_, ?_, rfl⟩
  · intro h401
    have hnotok : responseOk 401 = false := by decide
    constructor
    · simp [request, h401, hnotok]
    · exact ⟨catchHandler
        { name := none, message := derivedMessage r.body, status := some 401 },
        by simp [request, h401, hnotok]⟩
  · intro hnotok habort
    have hmsg := derivedMessage_ne_empty r.body
    simp only [request, hnotok, Bool.false_eq_true, if_false]
    rw [show catchHandler
        { name := none, message := derivedMessage r.body, status := some r.status }
        = ApiError.mk (some r.status) (derivedMessage r.body) none false by
      simp [catchHandler, habort, hmsg]]
  · intro habort
    refine ⟨catchHandler { name := name, message := msg, status := none }, rfl, ?_, ?_, ?_⟩
      <;> rcases habort with h | h <;> simp [catchHandler, h]
  · intro hname habort
    refine ⟨catchHandler { name := name, message := msg, status := none }, rfl, ?_, ?_, ?_, ?_⟩
      <;> simp [catchHandler, hname, habort]
  · intro m errf hm
    simp [derivedMessage, jsTruthyStr, hm]

/-- Witness for C6: a 404 with an empty JSON body yields a structured error
with status 404 and the "Request failed" fallback message. -/
theorem request_error_handling_witness :
    (request (some ("t"))
        (FetchOutcome.response (HttpResponse.mk 404 (BodyData.json none none)))).2
      = Except.error
          (ApiError.mk (some 404) (derivedMessage (BodyData.json none none)) none false) :=
  (request_error_handling (some ("t")) (HttpResponse.mk 404 (BodyData.json none none))
    none ("")).2.1 (by decide) (by decide)

/-- A product as normalized by the products dashboard
(`src/components/ProductsDashboard.tsx` lines 27–31): the original product
plus `id` and a derived total `quantity`. -/
structure NormalizedProduct where
  toProduct : Product
  id : String
  quantity : ℤ
deriving DecidableEq, Repr

/-- `normalizedProducts` from `src/components/ProductsDashboard.tsx`
(lines 27–31): `quantity` is recomputed from the sizes list on every
render. -/
def normalizedProducts (products : List Product) : List NormalizedProduct :=
  products.map (fun product =>
    { toProduct := product
      id := product._id
      quantity := product.sizes.foldl (fun sum s => sum + s.quantity) 0 })

/-- Claim C7: every product rendered by the dashboard carries a total stock
quantity equal to the sum of its size quantities, derived from the sizes
list itself (the underlying product is passed through unchanged, so there
is no separately stored total to drift from). -/
theorem normalizedProducts_quantity_eq_sum (products : List Product) :
    List.Forall₂ (fun product np =>
      np.toProduct = product ∧ np.id = product._id ∧
      np.quantity = (product.sizes.map ProductSize.quantity).sum)
      products (normalizedProducts products) := by
  unfold normalizedProducts
  rw [List.forall₂_map_right_iff, List.forall₂_same]
  intro p _
  refine ⟨rfl, rfl, ?_⟩
  simpa using foldl_add_eq_sum ProductSize.quantity p.sizes 0

/-- A selected file as seen by `BulkUpload.handleFileSelect`: its name and
MIME type. -/
structure JsFile where
  name : String
  type : String
deriving DecidableEq, Repr

/-- `validTypes` from `src/components/BulkUpload.tsx` (lines 19–22). -/
def validTypes : List String :=
  ["application/vnd.openxmlformats-officedocument.spreadsheetml.sheet",
   "application/vnd.ms-excel"]

/-- The `BulkUpload` component state touched by `handleFileSelect`. -/
structure UploadState where
  selectedFile : Option JsFile
  error : String
  uploadResult : Option String
deriving DecidableEq, Repr

/-- `handleFileSelect` from `src/components/BulkUpload.tsx` (lines 15–33).
The second component is the file posted to `ApiService.bulkUploadProducts`
during the handler — always `none`, since the upload happens only in the
separate `handleUpload` handler. -/
def handleFileSelect (chosen : Option JsFile) (st : UploadState) :
    UploadState × Option JsFile :=
  match chosen with
  | none => (st, none)
  | some file =>
    if ¬ validTypes.contains file.type then
      ({ st with error := "Please select a valid Excel file (.xlsx or .xls)" }, none)
    else
      ({ selectedFile := some file, error := "", uploadResult := none }, none)

/-- A valid spreadsheet file. -/
def xlsxFile : JsFile :=
  { name := "products.xlsx"
    type := "application/vnd.openxmlformats-officedocument.spreadsheetml.sheet" }

/-- A file of a non-spreadsheet MIME type. -/
def csvFile : JsFile :=
  { name := "products.csv", type := "text/csv" }

/-- Counterexample to C8 as stated: when a valid file was selected earlier,
choosing a file of an invalid type surfaces the error but does **not**
leave the selected file unset — the previous selection is retained. -/
theorem handleFileSelect_keeps_previous_counterexample :
    ((handleFileSelect (some csvFile)
        (UploadState.mk (some xlsxFile) ("") none)).1).selectedFile
      = some xlsxFile ∧
    ((handleFileSelect (some csvFile)
        (UploadState.mk (some xlsxFile) ("") none)).1).error
      = "Please select a valid Excel file (.xlsx or .xls)" := by
  constructor <;> rfl

/-- Claim C8 (amended): bulk upload accepts a chosen file only when its
MIME type is one of exactly the two spreadsheet types; any other type is
rejected with an inline error and without any request, leaving the
previously selected file unchanged (in particular still unset when nothing
had been selected). -/
theorem handleFileSelect_spec (f : JsFile) (st : UploadState) :
    (∀ t : String, validTypes.contains t = true ↔
      (t = "application/vnd.openxmlformats-officedocument.spreadsheetml.sheet" ∨
       t = "application/vnd.ms-excel")) ∧
    (validTypes.contains f.type = false →
      (handleFileSelect (some f) st).1
        = { st with error := "Please select a valid Excel file (.xlsx or .xls)" }) ∧
    (validTypes.contains f.type = true →
      (handleFileSelect (some f) st).1
        = { selectedFile := some f, error := "", uploadResult := none }) ∧
    (handleFileSelect (some f) st).2 = none ∧
    handleFileSelect none st = (st, none) := by
  refine ⟨?_, ?_, ?_, ?_, rfl⟩
  · intro t
    simp [validTypes]
  · intro hbad
    have hb : ¬ (validTypes.contains f.type = true) := by rw [hbad]; simp
    simp only [handleFileSelect]
    rw [if_pos hb]
  · intro hgood
    simp only [handleFileSelect]
    rw [if_neg (not_not_intro hgood)]
  · by_cases h : validTypes.contains f.type = true
    · simp only [handleFileSelect]
      rw [if_neg (not_not_intro h)]
    · simp only [handleFileSelect]
      rw [if_pos h]

/-- Witness for C8: selecting a CSV file over a pristine state sets only the
inline error, and the selected file stays unset. -/
theorem handleFileSelect_spec_witness :
    (handleFileSelect (some csvFile) (UploadState.mk none ("") none)).1
      = { UploadState.mk none ("") none with
          error := "Please select a valid Excel file (.xlsx or .xls)" } :=
  (handleFileSelect_spec csvFile (UploadState.mk none ("") none)).2.1 (by decide)

/-- The `listState` of the server-backed products dashboard
(`src/unnamed/part_005`). -/
structure ListState where
  page : ℕ
  pageSize : ℕ
  q : String
  sortBy : String
  sortDir : String
deriving DecidableEq, Repr

/-- The search-input normalization from the dashboard's `onChange`
handler: `q: val.length >= 2 ? val : ''`. -/
def qNorm (val : String) : String :=
  if 2 ≤ val.length then val else ""

/-- The debounce delay passed to `setTimeout` in the dashboard's
debounce effect (`setDebouncedQ(...), 500`). -/
def debounceDelayMs : ℕ := 500

/-- Which API the fetch effect invokes, with the parameters it passes. -/
inductive FetchCall
| searchProducts (q : String) (page : ℕ) (limit : ℕ)
| getAllProducts (page : ℕ) (pageSize : ℕ) (sortBy : String) (sortDir : String)
deriving DecidableEq, Repr

/-- The `fetcher` selection inside the dashboard's fetch effect:
`debouncedQ ? ApiService.searchProducts(...) : ApiService.getAllProducts(...)`. -/
def chooseFetcher (debouncedQ : String) (ls : ListState) : FetchCall :=
  if debouncedQ ≠ "" then FetchCall.searchProducts debouncedQ ls.page ls.pageSize
  else FetchCall.getAllProducts ls.page ls.pageSize ls.sortBy ls.sortDir

/-- An observable action of the fetch effect: starting fetch number `i`,
or aborting it via its `AbortController` (the effect's cleanup). -/
inductive EffectAction
| fetch (i : ℕ) (call : FetchCall)
| abortFetch (i : ℕ)
deriving DecidableEq, Repr

/-- The action sequence produced by React running the fetch effect over a
sequence of dependency snapshots `(debouncedQ, listState)`: each effect run
issues its fetch, and its cleanup — which aborts that fetch's controller —
runs before the next effect run. -/
def effectTrace : ℕ → List (String × ListState) → List EffectAction
| _, [] => []
| i, [d] => [EffectAction.fetch i (chooseFetcher d.1 d.2)]
| i, d :: d' :: rest =>
    EffectAction.fetch i (chooseFetcher d.1 d.2) :: EffectAction.abortFetch i ::
      effectTrace (i + 1) (d' :: rest)

/-- In every effect trace, the abort of fetch `n` happens before fetch
`n + 1` is issued (as an ordered sublist of the trace). -/
theorem effectTrace_abort_before_next (deps : List (String × ListState)) :
    ∀ i n, ∀ hn : n + 1 < deps.length,
      List.Sublist
        [EffectAction.abortFetch (i + n),
         EffectAction.fetch (i + n + 1)
           (chooseFetcher (deps.get ⟨n + 1, hn⟩).1 (deps.get ⟨n + 1, hn⟩).2)]
        (effectTrace i deps) := by
  induction deps with
  | nil => intro i n hn; simp at hn
  | cons d rest ih =>
    intro i n hn
    cases rest with
    | nil => simp at hn
    | cons d' rest' =>
      cases n with
      | zero =>
        simp only [effectTrace, Nat.add_zero, List.get]
        refine List.Sublist.cons _ (List.Sublist.cons₂ _ ?_)
        cases rest' with
        | nil =>
          simp only [effectTrace]
          exact List.Sublist.cons₂ _ (List.nil_sublist _)
        | cons d'' rest'' =>
          simp only [effectTrace]
          exact List.Sublist.cons₂ _ (List.nil_sublist _)
      | succ n' =>
        have hn' : n' + 1 < (d' :: rest').length := by
          simpa using Nat.lt_of_succ_lt_succ hn
        have step := ih (i + 1) n' hn'
        have hidx : i + 1 + n' = i + (n' + 1) := by omega
        rw [hidx] at step
        simp only [effectTrace, List.get]
        exact List.Sublist.cons _ (List.Sublist.cons _ step)

/-- The dashboard state touched by the fetch effect's `.catch` handler. -/
structure DashState where
  serverProducts : Option (List Product)
  totalCount : ℕ
  error : Option String
deriving DecidableEq, Repr

/-- The fetch effect's `.catch` handler (`src/unnamed/part_005`): aborted
requests are ignored, anything else surfaces an error message. -/
def applyFetchError (err : ApiError) (st : DashState) : DashState :=
  if err.code == some ("ABORTED") || err.aborted then st
  else
    { st with error := some (if err.message = "" then ("Failed to load products") else err.message) }

/-- Claim C9: the search term is debounced with a 500 ms delay; a typed
value below the 2-character minimum (hence an empty debounced term) routes
to the unfiltered `getAllProducts` listing with page/pageSize/sort, and a
longer one routes to the dedicated `searchProducts` endpoint with
q/page/limit; each new fetch aborts the previous in-flight one, and
aborted responses are ignored rather than applied. -/
theorem products_fetch_pipeline_spec (val : String) (ls : ListState)
    (deps : List (String × ListState)) (err : ApiError) (st : DashState) :
    debounceDelayMs = 500 ∧
    (val.length < 2 →
      chooseFetcher (qNorm val) ls
        = FetchCall.getAllProducts ls.page ls.pageSize ls.sortBy ls.sortDir) ∧
    (2 ≤ val.length →
      chooseFetcher (qNorm val) ls = FetchCall.searchProducts val ls.page ls.pageSize) ∧
    (∀ i n, ∀ hn : n + 1 < deps.length,
      List.Sublist
        [EffectAction.abortFetch (i + n),
         EffectAction.fetch (i + n + 1)
           (chooseFetcher (deps.get ⟨n + 1, hn⟩).1 (deps.get ⟨n + 1, hn⟩).2)]
        (effectTrace i deps)) ∧
    (err.code = some ("ABORTED") ∨ err.aborted = true →
      applyFetchError err st = st) := by
  refine ⟨rfl, ?_, ?_, effectTrace_abort_before_next deps, ?_⟩
  · intro hshort
    have h : ¬ 2 ≤ val.length := by omega
    simp [chooseFetcher, qNorm, h]
  · intro hlong
    have hne : val ≠ "" := by
      intro h
      rw [h] at hlong
      simp at hlong
    simp [chooseFetcher, qNorm, hlong, hne]
  · intro habort
    rcases habort with h | h <;> simp [applyFetchError, h]

/-- A list state used to instantiate the fetch-pipeline theorem. -/
def sampleListState : ListState :=
  { page := 1, pageSize := 12, q := "", sortBy := "name", sortDir := "asc" }

/-- Witness for C9: typing "shirt" routes to the dedicated search endpoint
with the typed term and the current page/limit. -/
theorem products_fetch_pipeline_spec_witness :
    chooseFetcher (qNorm ("shirt")) sampleListState
      = FetchCall.searchProducts ("shirt") sampleListState.page sampleListState.pageSize :=
  (products_fetch_pipeline_spec ("shirt") sampleListState []
    (ApiError.mk none ("x") none false)
    (DashState.mk none 0 none)).2.2.1 (by decide)
